import Mathlib

/-!
Shallow embedding of the tasbiaat-mamolaat backend (Python/Flask) core logic:
user/entry/level data model, the daily-entry submission route, the entry
viewing/deletion authorization, the user-creation route, the cycle-progress
calculator and the Zikr-completion engine, together with theorems settling the
frozen claims about this program.

Python dynamic semantics that matter here are modelled explicitly:
a call whose positional argument count differs from the function definition's
parameter count raises TypeError before the body runs; a call passing a keyword
argument that the definition does not accept raises TypeError; subscripting a
dict (or a Flask config) with a missing key raises KeyError; accessing an
attribute a class does not define raises AttributeError.  Machine integers are
modelled as Int (Python ints are unbounded), floats as exact rationals (noted
at each use), dicts as association lists keyed by String.
-/

namespace TMB

/-- Python runtime errors relevant to the embedded code paths. -/
inductive PyError where
  | typeError
  | keyError
  | attributeError
  | valueError
deriving Repr, DecidableEq

/-- Python/JSON values: the payloads, settings maps and category maps of the
backend are arbitrary JSON-ish dicts, so they are embedded as a small value
universe rather than fixed records. -/
inductive JValue where
  | null
  | bool (b : Bool)
  | int (n : Int)
  | str (s : String)
  | list (xs : List JValue)
  | dict (kvs : List (String × JValue))
deriving Repr, BEq

/-- Python truthiness for the embedded value universe
(None/False/0/empty string/empty list/empty dict are falsy). -/
def truthy : JValue → Bool
  | .null => false
  | .bool b => b
  | .int n => n != 0
  | .str s => !s.isEmpty
  | .list xs => !xs.isEmpty
  | .dict kvs => !kvs.isEmpty

/-- `d.get(k, default)` on a Python dict represented as an association list
(first binding wins, as in a dict there is at most one). -/
def jGet (kvs : List (String × JValue)) (k : String) (default : JValue) : JValue :=
  match kvs.find? (fun kv => kv.1 == k) with
  | some kv => kv.2
  | none => default

/-- `k in d` on a Python dict. -/
def jHasKey (kvs : List (String × JValue)) (k : String) : Bool :=
  (kvs.find? (fun kv => kv.1 == k)).isSome

/-- `v.get(k, default)`: only dicts have a `.get` attribute; on any other
value the attribute access raises AttributeError. -/
def pyGetDefault (v : JValue) (k : String) (default : JValue) :
    Except PyError JValue :=
  match v with
  | .dict kvs => .ok (jGet kvs k default)
  | _ => .error .attributeError

/-- Applying a Python function to a number of positional arguments different
from its definition's parameter count raises TypeError before the body runs. -/
def pyArityCheck (paramCount argCount : Nat) : Except PyError Unit :=
  if argCount = paramCount then .ok () else .error .typeError

/-- Calling a Python function with keyword arguments: every keyword used at the
call site must be a parameter name of the definition, otherwise the call raises
TypeError ("got an unexpected keyword argument") before the body runs. -/
def pyCallKw (params kwargs : List String) (body : Except PyError α) :
    Except PyError α :=
  if kwargs.all (fun k => params.contains k) then body else .error .typeError

/-- Accessing attribute `name` on a class whose attribute names are `attrs`:
a name the class does not define raises AttributeError. -/
def pyGetAttr (attrs : List String) (name : String) (body : Except PyError α) :
    Except PyError α :=
  if attrs.contains name then body else .error .attributeError

/-! ## Configuration (src/config.py, class Config)

`create_app` loads `app.config.from_object(Config)` (src/app.py line 19), so the
Flask config in effect is exactly the attributes of class `Config`.  The
business-rule attributes are listed below; deployment attributes (SECRET_KEY,
JWT settings, CORS, Redis/rate-limit URLs, DATA_DIR) are irrelevant to every
claim path and omitted.  Crucially, the keys `DEFAULT_ZIKR_MODE`, `USER_ROLES`
and `USER_CREATION_RULES`, which src/utils/helpers.py, src/utils/validators.py
and src/utils/auth.py subscript, are NOT attributes of class Config. -/

def configEntries : List (String × JValue) :=
  [ ("DEFAULT_CYCLE_DAYS", .int 40),
    ("ZIKR_MODES", .list [.str "auto_restart", .str "murabi_controlled"]),
    ("ROLES", .list [.str "Saalik", .str "Murabi", .str "Masool",
                     .str "Sheikh", .str "Admin"]),
    ("ROLE_HIERARCHY", .dict
      [ ("Admin", .list [.str "Sheikh", .str "Masool", .str "Murabi",
                         .str "Saalik", .str "Admin"]),
        ("Sheikh", .list [.str "Masool", .str "Murabi"]),
        ("Masool", .list [.str "Murabi", .str "Saalik"]),
        ("Murabi", .list [.str "Saalik"]) ]),
    ("SAALIK_LEVELS", .list [.int 0, .int 1, .int 2, .int 3, .int 4,
                             .int 5, .int 6]) ]

/-- `current_app.config[key]`: Flask's config is a dict, so a missing key
raises KeyError. -/
def pyConfigGet (key : String) : Except PyError JValue :=
  match configEntries.find? (fun kv => kv.1 == key) with
  | some kv => .ok kv.2
  | none => .error .keyError

/-! ## Dates

A calendar date is embedded as its serial day number (days since 0000-03-01 in
the civil-from-days scheme); `datetime.date` subtraction `(a - b).days` is then
plain Int subtraction and comparison is Int order.  `today` is passed in
explicitly (the spec treats the clock as an abstracted collaborator). -/

/-- Gregorian leap year. -/
def isLeapYear (y : Int) : Bool :=
  (y % 4 == 0 && y % 100 != 0) || y % 400 == 0

/-- Days in a month of the proleptic Gregorian calendar. -/
def daysInMonth (y m : Int) : Int :=
  if m == 2 then (if isLeapYear y then 29 else 28)
  else if m == 4 || m == 6 || m == 9 || m == 11 then 30
  else 31

/-- Serial day number of a civil date (Hinnant's days_from_civil algorithm;
all inputs of interest have y ≥ 1, where Int truncated division agrees with
floor division). -/
def daysFromCivil (y m d : Int) : Int :=
  let y' := if m ≤ 2 then y - 1 else y
  let era := (if 0 ≤ y' then y' else y' - 399) / 400
  let yoe := y' - era * 400
  let mp := (m + 9) % 12
  let doy := (153 * mp + 2) / 5 + d - 1
  let doe := yoe * 365 + yoe / 4 - yoe / 100 + doy
  era * 146097 + doe

/-- Split a character list at every occurrence of the separator (the
character-level counterpart of `str.split(sep)`: separators at the ends
produce empty fields). -/
def splitChar (sep : Char) : List Char → List (List Char)
  | [] => [[]]
  | c :: cs =>
      match splitChar sep cs with
      | [] => [[]]
      | t :: ts => if c == sep then [] :: t :: ts else (c :: t) :: ts

/-- Decimal value of a digit string. -/
def digitsVal (cs : List Char) : Int :=
  cs.foldl (fun acc c => acc * 10 + ((c.toNat : Int) - 48)) 0

/-- A run of 1 to `maxLen` ASCII digits, as a number. -/
def parseDigits (cs : List Char) (maxLen : Nat) : Option Int :=
  if cs.isEmpty || maxLen < cs.length || !cs.all Char.isDigit then none
  else some (digitsVal cs)

/-- One strptime format attempt: split on the separator into exactly three
numeric fields of the given maximal widths, then validate as a real calendar
date (this is how `datetime.strptime` behaves on the three formats used by the
backend: it rejects out-of-range months/days and years outside 1..9999). -/
def parseDateFields (s : String) (sep : Char) (w1 w2 w3 : Nat) :
    Option (Int × Int × Int) :=
  match splitChar sep s.data with
  | [a, b, c] => do
      let x ← parseDigits a w1
      let y ← parseDigits b w2
      let z ← parseDigits c w3
      some (x, y, z)
  | _ => none

/-- Check calendar validity and convert to a serial day number. -/
def civilToSerial (y m d : Int) : Option Int :=
  if 1 ≤ y && y ≤ 9999 && 1 ≤ m && m ≤ 12 && 1 ≤ d && d ≤ daysInMonth y m then
    some (daysFromCivil y m d)
  else none

/-- Format '%d/%m/%Y' (second strptime attempt). -/
def parseDateDMYSlash (date_string : String) : Option Int :=
  match parseDateFields date_string '/' 2 2 4 with
  | some (d, m, y) => civilToSerial y m d
  | none => none

/-- Format '%d-%m-%Y' (third strptime attempt). -/
def parseDateDMYDash (date_string : String) : Option Int :=
  match parseDateFields date_string '-' 2 2 4 with
  | some (d, m, y) => civilToSerial y m d
  | none => none

/-- Format '%Y-%m-%d' (first strptime attempt). -/
def parseDateYMD (date_string : String) : Option Int :=
  match parseDateFields date_string '-' 4 2 2 with
  | some (y, m, d) => civilToSerial y m d
  | none => none

/-- def parse_date_from_string (src/utils/helpers.py lines 202-215): empty
string returns None; otherwise try the formats '%Y-%m-%d', '%d/%m/%Y',
'%d-%m-%Y' in order and return the first date that parses, None otherwise. -/
def parse_date_from_string (date_string : String) : Option Int :=
  if date_string.data.isEmpty then none
  else
    match parseDateYMD date_string with
    | some n => some n
    | none =>
        match parseDateDMYSlash date_string with
        | some n => some n
        | none => parseDateDMYDash date_string

/-- Is `pat` an initial segment of the character list? -/
def startsWithChars : List Char → List Char → Bool
  | [], _ => true
  | _ :: _, [] => false
  | p :: ps, c :: cs => p == c && startsWithChars ps cs

/-- Fuelled worker for `replaceChars` (the fuel, initially the list length,
only bounds the recursion). -/
def replaceCharsAux (pat : List Char) : Nat → List Char → List Char
  | 0, cs => cs
  | _ + 1, [] => []
  | fuel + 1, c :: cs =>
      if startsWithChars pat (c :: cs) then
        replaceCharsAux pat fuel ((c :: cs).drop pat.length)
      else
        c :: replaceCharsAux pat fuel cs

/-- Remove every occurrence of the (non-empty) pattern: the character-level
counterpart of `str.replace(pat, '')`. -/
def replaceChars (pat cs : List Char) : List Char :=
  replaceCharsAux pat cs.length cs

/-- Strip leading and trailing whitespace: the counterpart of `str.strip()`. -/
def trimChars (cs : List Char) : List Char :=
  ((cs.dropWhile Char.isWhitespace).reverse.dropWhile Char.isWhitespace).reverse

/-! ## Rounding

Python's builtin `round(x, 2)` rounds half to even.  The backend computes
percentages with float arithmetic; floats are modelled as exact rationals here
(every claim about percentages allows for rounding at 2 decimal places, and no
claim distinguishes binary-float artifacts). -/

/-- Round a rational to the nearest integer, ties to even. -/
def roundHalfEven (q : ℚ) : ℤ :=
  let f := ⌊q⌋
  let r := q - f
  if r < 1/2 then f
  else if 1/2 < r then f + 1
  else if f % 2 = 0 then f else f + 1

/-- `round(x, 2)` on the rational model of a Python float. -/
def pyRound2 (q : ℚ) : ℚ := (roundHalfEven (q * 100) : ℚ) / 100

/-! ## Level catalog (src/models/level.py)

`Level.initialize_default_levels` seeds the level store with exactly the seven
records below (levels 0..6); `Level.find_by_level` is a lookup in that store.
The records carry the level number and required_fields verbatim from the
source's `default_levels` seed list (the Urdu display name and description are
not load-bearing for any claim and are omitted from the record). -/

structure LevelRec where
  level : Int
  required_fields : List String
deriving Repr, BEq

/-- The seeded level catalog (src/models/level.py, initialize of default
levels, lines 81-124): required_fields per level, verbatim. -/
def default_levels : List LevelRec :=
  [ ⟨0, ["categories.farayz", "categories.zikr"]⟩,
    ⟨1, ["categories.farayz", "categories.zikr", "categories.quran_tilawat"]⟩,
    ⟨2, ["categories.farayz", "categories.zikr", "categories.quran_tilawat",
         "categories.nawafil"]⟩,
    ⟨3, ["categories.farayz", "categories.zikr", "categories.quran_tilawat",
         "categories.nawafil", "categories.hifazat"]⟩,
    ⟨4, ["categories.farayz", "categories.zikr", "categories.quran_tilawat",
         "categories.nawafil", "categories.hifazat", "categories.sleep_wake"]⟩,
    ⟨5, ["categories.farayz", "categories.zikr", "categories.quran_tilawat",
         "categories.nawafil", "categories.hifazat", "categories.sleep_wake"]⟩,
    ⟨6, ["categories.farayz", "categories.zikr", "categories.quran_tilawat",
         "categories.nawafil", "categories.hifazat", "categories.sleep_wake"]⟩ ]

/-- classmethod Level.find_by_level (src/models/level.py lines 58-66): find the
catalog record with the given level number, None if absent. -/
def find_by_level (level_num : Int) : Option LevelRec :=
  default_levels.find? (fun l => l.level == level_num)

/-- def get_saalik_level_requirements (src/utils/helpers.py lines 62-75):
look up the level; None when the level is unknown, otherwise the record
(the source repackages the record's fields into a dict; the record itself
stands for that dict). -/
def get_saalik_level_requirements (level : Int) : Option LevelRec :=
  find_by_level level

/-! ## Users -/

/-- The User entity (src/models/user.py, class User): the fields the claim
paths read.  `settings` is a JSON dict; parent references are weak string
ids (`None` → `none`). -/
structure UserRec where
  _id : String
  name : String
  role : String
  murabi_id : Option String
  masool_id : Option String
  sheikh_id : Option String
  level : Int
  level_start_date : Option Int
  cycle_days : Int
  settings : List (String × JValue)
  is_active : Bool
deriving Repr, BEq

/-- `str(x)` on an optional id, as used in the routes' comparisons:
`str(None)` is the string "None". -/
def pyStrOpt : Option String → String
  | some s => s
  | none => "None"

/-- classmethod User.find_by_id over a user store. -/
def user_find_by_id (users : List UserRec) (user_id : String) :
    Option UserRec :=
  users.find? (fun u => u._id == user_id)

/-- The attribute names defined by class User (src/models/user.py): class
attributes and methods.  Note that `is_in_hierarchy`, which the route code
calls as `User.is_in_hierarchy(...)`, is NOT among them — no file under src/
defines it — so that attribute access raises AttributeError. -/
def user_class_attrs : List String :=
  [ "ROLES", "ZIKR_MODES", "validate_phone", "validate_email", "set_password",
    "check_password", "to_dict", "from_dict", "save", "find_by_id",
    "find_by_phone", "find_by_email", "find_by_identifier", "find_by_role",
    "find_all", "find_saaliks_by_murabi", "find_murabis_by_masool",
    "find_masools_by_sheikh", "can_create_role", "create_indexes" ]

/-- method User.can_create_role (src/models/user.py lines 288-298): the fixed
role-creation table, a dict lookup defaulting to the empty list. -/
def can_create_role (self_role target_role : String) : Bool :=
  let allowed_roles : List String :=
    if self_role == "Admin" then
      ["Sheikh", "Masool", "Murabi", "Saalik", "Admin"]
    else if self_role == "Sheikh" then ["Masool", "Murabi"]
    else if self_role == "Masool" then ["Murabi", "Saalik"]
    else if self_role == "Murabi" then ["Saalik"]
    else []
  allowed_roles.contains target_role

/-- Modelled from the spec: `User.is_in_hierarchy(target_id, ancestor_id)` is
called throughout src/routes but no method of that name is defined anywhere
under src/ (see `user_class_attrs`).  The spec, section 4.1, describes the
intended ancestor check: walk the target's upward parent chain murabi_id →
that Murabi's masool_id → that Masool's sheikh_id and test membership; a
missing or dangling parent reference terminates the walk as "not an
ancestor".  This definition is used only to express what the dead branch of
the attribute access would have computed. -/
def is_in_hierarchy_spec (users : List UserRec) (target_id ancestor_id : String) :
    Bool :=
  match user_find_by_id users target_id with
  | none => false
  | some target =>
    match target.murabi_id with
    | none => false
    | some mid =>
      mid == ancestor_id ||
      match user_find_by_id users mid with
      | none => false
      | some murabi =>
        match murabi.masool_id with
        | none => false
        | some maid =>
          maid == ancestor_id ||
          match user_find_by_id users maid with
          | none => false
          | some masool =>
            match masool.sheikh_id with
            | none => false
            | some sid => sid == ancestor_id

/-! ## Entries -/

/-- The Entry entity (src/models/entry.py, class Entry): the fields the claim
paths read.  The date is stored as a serial day number. -/
structure EntryRec where
  _id : String
  user_id : String
  murabi_id : Option String
  date : Int
  categories : JValue
deriving Repr, BEq

/-- classmethod Entry.find_by_user_and_date (src/models/entry.py lines
163-177): the unique entry with the given user id and date, None if absent. -/
def entry_find_by_user_and_date (entries : List EntryRec) (user_id : String)
    (entry_date : Int) : Option EntryRec :=
  entries.find? (fun e => e.user_id == user_id && e.date == entry_date)

/-- classmethod Entry.find_by_id (src/models/entry.py lines 153-161). -/
def entry_find_by_id (entries : List EntryRec) (entry_id : String) :
    Option EntryRec :=
  entries.find? (fun e => e._id == entry_id)

/-- The parameter names of classmethod Entry.find_by_user
(src/models/entry.py line 205): `(cls, user_id, status=None, start_date=None,
end_date=None)`.  The route call sites additionally pass the keywords `skip`
and `limit`, which this definition does not accept. -/
def entry_find_by_user_params : List String :=
  ["user_id", "status", "start_date", "end_date"]

/-- The parameter names of classmethod Entry.find_by_murabi
(src/models/entry.py line 180): same parameter list shape. -/
def entry_find_by_murabi_params : List String :=
  ["murabi_id", "status", "start_date", "end_date"]

/-- The keyword arguments get_entries passes to Entry.find_by_user /
Entry.find_by_murabi (src/routes/entries.py lines 256-294, 316-322). -/
def get_entries_store_kwargs : List String :=
  ["start_date", "end_date", "skip", "limit"]

/-! ## Zikr completion (src/models/entry.py, src/utils/helpers.py) -/

/-- Iterating a generator over the items of a value: only the shapes that the
zikr code can meet are modelled (a non-iterable raises TypeError; iterating a
dict yields its keys, iterating a string yields its one-character strings). -/
def pyIterElems : JValue → Except PyError (List JValue)
  | .list xs => .ok xs
  | .dict kvs => .ok (kvs.map (fun kv => .str kv.1))
  | .str s => .ok (s.data.map (fun c => .str (String.singleton c)))
  | _ => .error .typeError

/-- `all(item.get('done', False) for item in items)`: short-circuits at the
first falsy flag, so later malformed items are not touched (as in Python's
lazy generator). -/
def allDone : List JValue → Except PyError Bool
  | [] => .ok true
  | item :: rest => do
      let d ← pyGetDefault item "done" (.bool false)
      if truthy d then allDone rest else .ok false

/-- method Entry.compute_zikr_completed (src/models/entry.py lines 29-42):
`zikr_data = categories.get('zikr', {})`, then morning and evening sub-lists
(defaulting to []) must each be all done; the conjunction is stored and
returned.  `categories` is the entry's categories dict. -/
def compute_zikr_completed (categories : List (String × JValue)) :
    Except PyError Bool := do
  let zikr_data := jGet categories "zikr" (.dict [])
  let morning_zikr ← pyGetDefault zikr_data "morning" (.list [])
  let morning_items ← pyIterElems morning_zikr
  let morning_completed ← allDone morning_items
  let evening_zikr ← pyGetDefault zikr_data "evening" (.list [])
  let evening_items ← pyIterElems evening_zikr
  let evening_completed ← allDone evening_items
  return morning_completed && evening_completed

/-- def calculate_zikr_completion_status (src/utils/helpers.py lines 77-86):
takes ONE parameter `entry_data`; reads `entry_data.get('categories', {})`,
then `categories.get('zikr', {})`; an empty/falsy zikr dict yields False,
otherwise the flat `zikr_data.get('completed', False)` value is returned. -/
def calculate_zikr_completion_status (entry_data : JValue) :
    Except PyError JValue := do
  let categories ← pyGetDefault entry_data "categories" (.dict [])
  let zikr_data ← pyGetDefault categories "zikr" (.dict [])
  if !truthy zikr_data then
    return .bool false
  else
    pyGetDefault zikr_data "completed" (.bool false)

/-- The parameter count of def calculate_zikr_completion_status
(src/utils/helpers.py line 77): one parameter, `entry_data`. -/
def calculate_zikr_completion_status_paramCount : Nat := 1

/-- The positional argument count of the call at src/routes/entries.py line
87: `calculate_zikr_completion_status(data['categories'], level_requirements)`
passes two arguments. -/
def create_entry_line87_argCount : Nat := 2

/-- The parameter count of def should_restart_cycle (src/utils/helpers.py
line 182): two parameters, `user` and `missed_zikr_date`. -/
def should_restart_cycle_paramCount : Nat := 2

/-- The positional argument count of the call at src/routes/entries.py line
93: `should_restart_cycle(current_user, data['categories'],
level_requirements)` passes three arguments. -/
def create_entry_line93_argCount : Nat := 3

/-- def should_restart_cycle (src/utils/helpers.py lines 182-192), applied per
its own two-parameter signature.  Its first statement is
`user.settings.get('zikr_mode', current_app.config['DEFAULT_ZIKR_MODE'])`:
Python evaluates the default argument of `.get` eagerly, and class Config
defines no `DEFAULT_ZIKR_MODE` attribute, so the subscript raises KeyError
unconditionally — even for users whose settings do contain `zikr_mode`.  The
dead code after that subscript: auto_restart → True; murabi_controlled →
`settings.get('auto_restart_on_missed_zikr', False)` (note: the
`zikr_mandatory` flag is not consulted); otherwise False. -/
def should_restart_cycle (user : UserRec) (_missed_zikr_date : Int) :
    Except PyError JValue := do
  let dflt ← pyConfigGet "DEFAULT_ZIKR_MODE"
  let zikr_mode := jGet user.settings "zikr_mode" dflt
  if zikr_mode == .str "auto_restart" then
    return .bool true
  else if zikr_mode == .str "murabi_controlled" then
    return jGet user.settings "auto_restart_on_missed_zikr" (.bool false)
  else
    return .bool false

/-- def check_zikr_mandatory_rule (src/utils/helpers.py lines 170-180),
applied per its own two-parameter signature; same eager
`config['DEFAULT_ZIKR_MODE']` subscript, hence the same unconditional
KeyError. -/
def check_zikr_mandatory_rule (user : UserRec) (_entry_date : Int) :
    Except PyError JValue := do
  let dflt ← pyConfigGet "DEFAULT_ZIKR_MODE"
  let zikr_mode := jGet user.settings "zikr_mode" dflt
  if zikr_mode == .str "auto_restart" then
    return .bool true
  else if zikr_mode == .str "murabi_controlled" then
    return jGet user.settings "zikr_mandatory" (.bool false)
  else
    return .bool false

/-! ## Cycle progress (src/utils/helpers.py lines 27-60) -/

/-- The dict returned by calculate_cycle_progress; `start_date` and
`expected_completion_date` are present only in the started-cycle branch. -/
structure CycleProgress where
  current_day : Int
  total_days : Int
  progress_percentage : ℚ
  days_remaining : Int
  is_completed : Bool
  start_date : Option Int
  expected_completion_date : Option Int
deriving Repr, BEq

/-- def calculate_cycle_progress (src/utils/helpers.py lines 27-60), with the
clock passed explicitly.  Absent `level_start_date` → the zeroed record.
Otherwise `days_elapsed = (today - start_date).days + 1`,
`current_day = min(days_elapsed, cycle_days)`,
`progress_percentage = round((current_day / cycle_days) * 100, 2)`,
`days_remaining = max(0, cycle_days - days_elapsed)`,
`is_completed = days_elapsed >= cycle_days`.  Division is exact rational
division (floats modelled as rationals); the function is only ever meaningful
for cycle_days > 0 (cycle_days = 0 would raise ZeroDivisionError in Python;
rational division by zero yields 0 here — no claim touches that point). -/
def calculate_cycle_progress (today : Int) (level_start_date : Option Int)
    (cycle_days : Int) : CycleProgress :=
  match level_start_date with
  | none =>
      { current_day := 0, total_days := cycle_days, progress_percentage := 0,
        days_remaining := cycle_days, is_completed := false,
        start_date := none, expected_completion_date := none }
  | some start_date =>
      let days_elapsed := today - start_date + 1
      let current_day := min days_elapsed cycle_days
      let progress_percentage : ℚ :=
        ((current_day : ℚ) / (cycle_days : ℚ)) * 100
      let days_remaining := max 0 (cycle_days - days_elapsed)
      let is_completed := decide (cycle_days ≤ days_elapsed)
      { current_day := current_day, total_days := cycle_days,
        progress_percentage := pyRound2 progress_percentage,
        days_remaining := days_remaining, is_completed := is_completed,
        start_date := some start_date,
        expected_completion_date := some (start_date + cycle_days - 1) }

/-! ## API responses (src/utils/helpers.py, format_response)

Only the `success`, `message` and HTTP status of a response are load-bearing
for the claims; the `data`/`timestamp` payload of format_response is not
modelled. -/

structure Response where
  success : Bool
  message : String
  status_code : Int
deriving Repr, BEq

/-- One appended audit record (models AuditLog.log_action's stored action);
only the action tag and resource are needed to state the claims (in
particular that no `cycle_restarted` record is ever appended). -/
structure AuditRec where
  action : String
  resource_type : String
deriving Repr, BEq

/-! ## Validators (src/utils/validators.py) -/

/-- Characters removed by `re.sub(r'[\s-]', '', phone)`. -/
def stripPhoneChars (s : String) : List Char :=
  s.data.filter (fun c => !(c.isWhitespace || c == '-'))

/-- The optional country prefixes of both phone patterns, in the regex
alternation order (including the absent-group case). -/
def phonePrefixes : List (List Char) :=
  ["+92".data, "0092".data, "92".data, [] ]

/-- Pattern `^(\+92|0092|92)?3[0-9]{9}$`. -/
def phonePattern1 (cs : List Char) : Bool :=
  phonePrefixes.any (fun p =>
    cs.take p.length == p &&
    (let rest := cs.drop p.length
     rest.length == 10 && rest.head? == some '3' && rest.all Char.isDigit))

/-- Pattern `^(\+92|0092|92)?[2-9][0-9]{7,10}$`. -/
def phonePattern2 (cs : List Char) : Bool :=
  phonePrefixes.any (fun p =>
    cs.take p.length == p &&
    (let rest := cs.drop p.length
     8 ≤ rest.length && rest.length ≤ 11 &&
     (match rest.head? with
      | some c => '2' ≤ c && c ≤ '9'
      | none => false) &&
     rest.all Char.isDigit))

/-- def validate_phone (src/utils/validators.py lines 9-27): empty/falsy →
required; strip whitespace and dashes; accept if either Pakistani pattern
matches. -/
def validate_phone (phone : String) : Bool × Option String :=
  if phone.data.isEmpty then (false, some "Phone number is required")
  else
    let cs := stripPhoneChars phone
    if phonePattern1 cs || phonePattern2 cs then (true, none)
    else (false, some "Invalid Pakistani phone number format")

/-- The character class `[!@#$%^&*(),.?":\x7b\x7d|<>]` of the password
special-character check (the two brace characters written by code point). -/
def passwordSpecialChars : List Char :=
  ['!', '@', '#', '$', '%', '^', '&', '*', '(', ')', ',', '.', '?', '"', ':',
   Char.ofNat 123, Char.ofNat 125, '|', '<', '>']

/-- def validate_password (src/utils/validators.py lines 41-65). -/
def validate_password (password : String) : Bool × Option String :=
  if password.data.isEmpty then (false, some "Password is required")
  else if password.data.length < 8 then
    (false, some "Password must be at least 8 characters long")
  else if 128 < password.data.length then
    (false, some "Password must be less than 128 characters")
  else if !password.data.any Char.isUpper then
    (false, some "Password must contain at least one uppercase letter")
  else if !password.data.any Char.isLower then
    (false, some "Password must contain at least one lowercase letter")
  else if !password.data.any Char.isDigit then
    (false, some "Password must contain at least one digit")
  else if !password.data.any (fun c => passwordSpecialChars.contains c) then
    (false, some "Password must contain at least one special character")
  else (true, none)

/-- Character class of the email regex local part `[a-zA-Z0-9._%+-]`. -/
def emailLocalChar (c : Char) : Bool :=
  c.isAlphanum || c == '.' || c == '_' || c == '%' || c == '+' || c == '-'

/-- Character class of the email regex domain part `[a-zA-Z0-9.-]`. -/
def emailDomainChar (c : Char) : Bool :=
  c.isAlphanum || c == '.' || c == '-'

/-- def validate_email (src/utils/validators.py lines 29-39), pattern
`^[a-zA-Z0-9._%+-]+@[a-zA-Z0-9.-]+\.[a-zA-Z]{2,}$`: one @, a non-empty local
part of local characters, and a domain that is a non-empty run of domain
characters followed by a dot and at least two letters. -/
def validate_email (email : String) : Bool × Option String :=
  if email.isEmpty then (false, some "Email is required")
  else
    let ok :=
      match email.splitOn "@" with
      | [lpart, domain] =>
          let parts := domain.splitOn "."
          let tld := (parts.getLast?).getD ""
          let host := String.intercalate "." parts.dropLast
          !lpart.isEmpty && lpart.data.all emailLocalChar &&
          2 ≤ parts.length && !host.isEmpty &&
          host.data.all emailDomainChar &&
          2 ≤ tld.length && tld.data.all (fun c => c.isAlpha)
      | _ => false
    if ok then (true, none) else (false, some "Invalid email format")

/-- def validate_user_role (src/utils/validators.py lines 67-74): subscripts
`current_app.config['USER_ROLES']` — class Config defines `ROLES`, not
`USER_ROLES`, so this raises KeyError on every call. -/
def validate_user_role (role : String) : Except PyError (Bool × Option String) := do
  let valid_roles ← pyConfigGet "USER_ROLES"
  match valid_roles with
  | .list xs =>
      if xs.contains (.str role) then return (true, none)
      else
        return (false, some ("Invalid role. Must be one of: " ++
          String.intercalate ", "
            (xs.filterMap (fun v => match v with | .str s => some s | _ => none))))
  | _ => .error .typeError

/-- def validate_saalik_level (src/utils/validators.py lines 76-83):
subscripts `current_app.config['SAALIK_LEVELS']` (present: 0..6). -/
def validate_saalik_level (level : Int) : Except PyError (Bool × Option String) := do
  let valid_levels ← pyConfigGet "SAALIK_LEVELS"
  match valid_levels with
  | .list xs =>
      if xs.contains (.int level) then return (true, none)
      else
        return (false, some ("Invalid Saalik level. Must be one of: " ++
          String.intercalate ", "
            (xs.filterMap (fun v => match v with | .int n => some (toString n) | _ => none))))
  | _ => .error .typeError

/-- def can_user_create_role (src/utils/auth.py lines 233-238): subscripts
`current_app.config['USER_CREATION_RULES']` — class Config defines
`ROLE_HIERARCHY`, not `USER_CREATION_RULES`, so this raises KeyError on every
call. -/
def can_user_create_role (current_user_role target_role : String) :
    Except PyError Bool := do
  let creation_rules ← pyConfigGet "USER_CREATION_RULES"
  match creation_rules with
  | .dict kvs =>
      match jGet kvs current_user_role (.list []) with
      | .list allowed => return allowed.contains (.str target_role)
      | _ => .error .typeError
  | _ => .error .typeError

/-- The required-category loop of validate_entry_data (src/utils/validators.py
lines 101-116).  On every claim path the `categories` value is dict-shaped;
the Python `in`/subscript on a non-dict container is not met there and is
conservatively modelled as TypeError. -/
def validate_categories_loop (categories : JValue) :
    List String → Except PyError (Bool × Option String)
  | [] => .ok (true, none)
  | field :: rest =>
      let category := String.mk (replaceChars "categories.".data field.data)
      match categories with
      | .dict kvs =>
          if !jHasKey kvs category then
            .ok (false, some ("Missing required category: " ++ category))
          else
            match jGet kvs category .null with
            | .dict cdata =>
                if !jHasKey cdata "completed" then
                  .ok (false, some ("Category " ++ category ++
                    " must have \x27completed\x27 field"))
                else
                  match jGet cdata "completed" .null with
                  | .bool _ => validate_categories_loop (.dict kvs) rest
                  | _ =>
                      .ok (false, some ("Category " ++ category ++
                        " \x27completed\x27 must be boolean"))
            | _ =>
                .ok (false, some ("Category " ++ category ++
                  " must be a dictionary"))
      | _ => .error .typeError

/-- def validate_entry_data (src/utils/validators.py lines 85-126): non-dict →
failure; unknown level → failure naming the level; then every required
category path (with the `categories.` prefix stripped) must be present in
`entry_data.get('categories', {})` — note the double unwrap: the caller in
create_entry already passes `data['categories']`, so this inner `.get` only
finds something when the submitted map itself nests a `categories` key — and
be a dict with a boolean `completed`; finally an optional `date` value must
parse as '%Y-%m-%d' (strptime on a truthy non-string raises TypeError —
ValueError alone is caught). -/
def validate_entry_data (entry_data : JValue) (user_level : Int) :
    Except PyError (Bool × Option String) :=
  match entry_data with
  | .dict kvs =>
      (match find_by_level user_level with
       | none => .ok (false, some ("Invalid user level: " ++ toString user_level))
       | some level_obj => do
          let categories := jGet kvs "categories" (.dict [])
          let r ← validate_categories_loop categories level_obj.required_fields
          if r.1 then
            let entry_date := jGet kvs "date" .null
            if truthy entry_date then
              match entry_date with
              | .str s =>
                  if (parseDateYMD s).isSome then return (true, none)
                  else return (false, some "Invalid date format. Use YYYY-MM-DD")
              | _ => .error .typeError
            else return (true, none)
          else return r)
  | _ => .ok (false, some "Entry data must be a dictionary")

/-- def validate_date_range (src/utils/validators.py lines 141-160): its body
immediately applies `datetime.strptime` to its arguments, i.e. it expects
STRINGS; get_entries passes it already-parsed date objects, and strptime on a
date object raises TypeError (only ValueError is caught).  Claims never reach
this call with both dates supplied, so only that failure mode is modelled. -/
def validate_date_range_onDates (_start_date _end_date : Int) :
    Except PyError (Bool × Option String) :=
  .error .typeError

/-! ## The entry submission route (src/routes/entries.py, create_entry) -/

/-- The JSON payload of a submission after @validate_json_payload has checked
that `date` and `categories` are present (src/routes/entries.py line 29).
The date arrives as a string, the categories map as an arbitrary JSON value. -/
structure EntryPayload where
  date : String
  categories : JValue
deriving Repr

/-- The state create_entry can read or write: the entry store, the audit-log
sink, and the authenticated current user's record. -/
structure CESt where
  entries : List EntryRec
  audits : List AuditRec
  user : UserRec
deriving Repr, BEq

/-- def create_entry (src/routes/entries.py lines 31-201), body of the route
(the @jwt_required_custom / @rate_limit / @validate_json_payload layers are
assumed passed — the claims all start from an authenticated actor with a
well-formed JSON envelope).  Control flow, in source order: only Saalik may
submit (403); the date must parse (400), not be in the future (400), and not
be older than 7 days (400); the categories must validate for the user's level
(400); the level must exist (400); then the entry for (user, date) is looked
up, and line 87 calls calculate_zikr_completion_status with two positional
arguments although its definition takes one parameter, so the call raises
TypeError.  Everything after line 87 — both the update and the insert branch,
the comment handling, the save, the audit logging and the cycle-restart block
(lines 88-201) — is unreachable and therefore not modelled; in particular no
write to any store has happened when the TypeError is raised. -/
def create_entry (today : Int) (st : CESt) (p : EntryPayload) :
    (Except PyError Response) × CESt :=
  if st.user.role != "Saalik" then
    (.ok ⟨false, "Only Saalik users can submit daily entries", 403⟩, st)
  else
    match parse_date_from_string p.date with
    | none => (.ok ⟨false, "Invalid date format. Use YYYY-MM-DD", 400⟩, st)
    | some entry_date =>
        if today < entry_date then
          (.ok ⟨false, "Cannot submit entries for future dates", 400⟩, st)
        else if 7 < today - entry_date then
          (.ok ⟨false, "Cannot submit entries older than 7 days", 400⟩, st)
        else
          match validate_entry_data p.categories st.user.level with
          | .error e => (.error e, st)
          | .ok (false, error) => (.ok ⟨false, error.getD "", 400⟩, st)
          | .ok (true, _) =>
              match get_saalik_level_requirements st.user.level with
              | none => (.ok ⟨false, "Invalid Saalik level", 400⟩, st)
              | some _level_requirements =>
                  let _existing_entry :=
                    entry_find_by_user_and_date st.entries st.user._id entry_date
                  match pyArityCheck calculate_zikr_completion_status_paramCount
                      create_entry_line87_argCount with
                  | .error e => (.error e, st)
                  | .ok _ =>
                      -- Unreachable: pyArityCheck 1 2 = .error .typeError
                      -- (lemma create_entry_line87_raises below).
                      (.error .typeError, st)

/-! ## The entry viewing route (src/routes/entries.py, get_entries) -/

/-- The attribute names defined by class Entry (src/models/entry.py).  Note
that `find_all`, `find_by_hierarchy` and the `count_*` classmethods the routes
call are NOT among them. -/
def entry_class_attrs : List String :=
  [ "STATUSES", "compute_zikr_completed", "add_comment", "add_audit",
    "to_dict", "from_dict", "save", "find_by_id", "find_by_user_and_date",
    "find_by_murabi", "find_by_user", "get_weekly_summary", "create_indexes" ]

/-- Query parameters of GET /entries (src/routes/entries.py lines 210-214),
already converted to their numeric defaults (`page` defaults to 1, `limit`
to 20). -/
structure EntriesQuery where
  page : Int := 1
  limit : Int := 20
  user_id : Option String := none
  start_date : Option String := none
  end_date : Option String := none
deriving Repr

/-- The would-be result of a successful entry fetch (the dead branches of the
broken store calls below): the success response of get_entries. -/
def entriesRetrievedOk : Except PyError Response :=
  .ok ⟨true, "Entries retrieved successfully", 200⟩

/-- The role dispatch of get_entries (src/routes/entries.py lines 247-349),
split out so it can follow the date-filter handling.  The store fetches on
every permitted path are calls of Entry.find_by_user / Entry.find_by_murabi
with the keyword arguments `skip` and `limit`, which those definitions do not
accept (TypeError), or accesses of Entry.find_all / Entry.find_by_hierarchy,
which class Entry does not define (AttributeError); and the hierarchy
permission test for a non-Admin supervisor accesses User.is_in_hierarchy,
which class User does not define (AttributeError). -/
def get_entries_dispatch (users : List UserRec) (_entries : List EntryRec)
    (current_user : UserRec) (q : EntriesQuery) : Except PyError Response :=
  if current_user.role == "Saalik" then
    -- lines 247-263
    match q.user_id with
    | some uid =>
        if uid != current_user._id then
          .ok ⟨false, "You can only view your own entries", 403⟩
        else
          pyCallKw entry_find_by_user_params get_entries_store_kwargs
            entriesRetrievedOk
    | none =>
        pyCallKw entry_find_by_user_params get_entries_store_kwargs
          entriesRetrievedOk
  else if current_user.role == "Murabi" then
    -- lines 265-294
    match q.user_id with
    | some uid =>
        (match user_find_by_id users uid with
         | none => .ok ⟨false, "You can only view entries of your assigned Saalik", 403⟩
         | some user =>
             if pyStrOpt user.murabi_id != current_user._id then
               .ok ⟨false, "You can only view entries of your assigned Saalik", 403⟩
             else
               pyCallKw entry_find_by_user_params get_entries_store_kwargs
                 entriesRetrievedOk)
    | none =>
        pyCallKw entry_find_by_murabi_params get_entries_store_kwargs
          entriesRetrievedOk
  else if current_user.role == "Masool" || current_user.role == "Sheikh" ||
      current_user.role == "Admin" then
    -- lines 296-342
    match q.user_id with
    | some uid =>
        (match user_find_by_id users uid with
         | none => .ok ⟨false, "User not found", 404⟩
         | some user =>
             if current_user.role != "Admin" then
               -- line 309: `User.is_in_hierarchy(...)` — attribute not defined
               -- by class User → AttributeError; the dead branch shows what the
               -- spec-modelled ancestor walk would have decided
               pyGetAttr user_class_attrs "is_in_hierarchy"
                 (if !is_in_hierarchy_spec users user._id current_user._id then
                    .ok ⟨false, "You can only view entries of users in your hierarchy", 403⟩
                  else
                    pyCallKw entry_find_by_user_params get_entries_store_kwargs
                      entriesRetrievedOk)
             else
               pyCallKw entry_find_by_user_params get_entries_store_kwargs
                 entriesRetrievedOk)
    | none =>
        if current_user.role == "Admin" then
          -- line 327: Entry.find_all — attribute not defined by class Entry
          pyGetAttr entry_class_attrs "find_all" entriesRetrievedOk
        else
          -- line 335: Entry.find_by_hierarchy — attribute not defined
          pyGetAttr entry_class_attrs "find_by_hierarchy" entriesRetrievedOk
  else
    .ok ⟨false, "Invalid user role", 403⟩

/-- def get_entries (src/routes/entries.py lines 205-366), body of the route.
Read-only: the function never writes any store, so only the response outcome
is returned; pagination, date filtering and role dispatch in source order. -/
def get_entries (users : List UserRec) (entries : List EntryRec)
    (current_user : UserRec) (q : EntriesQuery) : Except PyError Response :=
  let limit := min q.limit 100
  let _skip := (q.page - 1) * limit
  -- lines 222-238: parse the optional date filters
  let start_parse : Except PyError (Option Int) :=
    match q.start_date with
    | none => .ok none
    | some s =>
        match parse_date_from_string s with
        | none => .error .valueError   -- placeholder, remapped to 400 below
        | some d => .ok (some d)
  match start_parse with
  | .error _ => .ok ⟨false, "Invalid start_date format. Use YYYY-MM-DD", 400⟩
  | .ok start_date_obj =>
    let end_parse : Except PyError (Option Int) :=
      match q.end_date with
      | none => .ok none
      | some s =>
          match parse_date_from_string s with
          | none => .error .valueError
          | some d => .ok (some d)
    match end_parse with
    | .error _ => .ok ⟨false, "Invalid end_date format. Use YYYY-MM-DD", 400⟩
    | .ok end_date_obj =>
      -- lines 241-244: with both dates present, validate_date_range is called
      -- on date OBJECTS though it strptime-parses its arguments → TypeError
      match start_date_obj, end_date_obj with
      | some s, some e =>
          (match validate_date_range_onDates s e with
           | .error err => .error err
           | .ok (false, error) => .ok ⟨false, error.getD "", 400⟩
           | .ok (true, _) => get_entries_dispatch users entries current_user q)
      | _, _ => get_entries_dispatch users entries current_user q

/-! ## The entry deletion route (src/routes/entries.py, delete_entry) -/

/-- The parameter names of classmethod AuditLog.log_action
(src/models/audit_log.py lines 69-70): `(cls, user_id, action, resource_type,
resource_id=None, details=None, ip_address=None, user_agent=None)`. -/
def audit_log_action_params : List String :=
  ["user_id", "action", "resource_type", "resource_id", "details",
   "ip_address", "user_agent"]

/-- The keyword arguments the @log_activity decorator passes to
AuditLog.log_action (src/utils/decorators.py lines 247-256): note `metadata`,
which log_action does not accept. -/
def log_activity_call_kwargs : List String :=
  ["user_id", "action", "resource_type", "ip_address", "user_agent", "metadata"]

/-- The keyword arguments the delete_entry body passes to AuditLog.log_action
(src/routes/entries.py lines 659-665): note `old_values`, which log_action
does not accept. -/
def delete_entry_log_kwargs : List String :=
  ["user_id", "action", "resource_type", "resource_id", "old_values"]

/-- def delete_entry (src/routes/entries.py lines 610-670), body of the route.
Entry not found → 404.  `can_delete`: Admin → True; Masool/Sheikh → look up
the owner and, if found, access User.is_in_hierarchy (AttributeError — class
User defines no such method; the dead branch shows the spec-modelled walk);
every other role leaves can_delete False → the 403 insufficient-permissions
response, with no store mutation.  The Admin path deletes the record from the
store and then calls AuditLog.log_action with the keyword `old_values`, which
log_action does not accept → TypeError AFTER the delete has persisted. -/
def delete_entry (users : List UserRec) (entries : List EntryRec)
    (current_user : UserRec) (entry_id : String) :
    (Except PyError Response) × List EntryRec :=
  match entry_find_by_id entries entry_id with
  | none => (.ok ⟨false, "Entry not found", 404⟩, entries)
  | some entry =>
      let can_delete : Except PyError Bool :=
        if current_user.role == "Admin" then .ok true
        else if current_user.role == "Masool" || current_user.role == "Sheikh" then
          match user_find_by_id users entry.user_id with
          | some user =>
              pyGetAttr user_class_attrs "is_in_hierarchy"
                (.ok (is_in_hierarchy_spec users user._id current_user._id))
          | none => .ok false
        else .ok false
      match can_delete with
      | .error e => (.error e, entries)
      | .ok false =>
          (.ok ⟨false, "Insufficient permissions to delete this entry", 403⟩,
           entries)
      | .ok true =>
          let entries' := entries.filter (fun e => e._id != entry._id)
          if entries'.length == entries.length then
            (.ok ⟨false, "Failed to delete entry", 500⟩, entries)
          else
            (pyCallKw audit_log_action_params delete_entry_log_kwargs
              (.ok ⟨true, "Entry deleted successfully", 200⟩), entries')

/-- The decorated DELETE /entries/<id> route (src/routes/entries.py lines
606-609): @jwt_required_custom (assumed passed: the actor is authenticated;
it also copies a `required_roles` list out of the JSON payload into `g` when
the payload carries one — src/utils/decorators.py lines 37-38), then
@role_required('Masool', 'Sheikh', 'Admin') — which checks the PAYLOAD's
required_roles INSTEAD of the decorator's when the payload supplies a
non-empty list (src/utils/decorators.py lines 83-96) — and then
@log_activity('delete_entry', 'entry'), which runs the body and afterwards
calls AuditLog.log_action with the unexpected keyword `metadata` → TypeError
whenever the body returned normally. -/
def delete_entry_route (users : List UserRec) (entries : List EntryRec)
    (current_user : UserRec) (entry_id : String)
    (payload_required_roles : Option (List String)) :
    (Except PyError Response) × List EntryRec :=
  let allowed_roles := ["Masool", "Sheikh", "Admin"]
  let roles_to_check :=
    match payload_required_roles with
    | some rs => if rs.isEmpty then allowed_roles else rs
    | none => allowed_roles
  if !roles_to_check.contains current_user.role then
    (.ok ⟨false, "Access denied. Required roles: " ++
      String.intercalate ", " roles_to_check, 403⟩, entries)
  else
    match delete_entry users entries current_user entry_id with
    | (.error e, entries') => (.error e, entries')
    | (.ok resp, entries') =>
        (pyCallKw audit_log_action_params log_activity_call_kwargs (.ok resp),
         entries')

/-! ## The user creation route (src/routes/users.py, create_user) -/

/-- The JSON payload of POST /users after @validate_json_payload has checked
name/phone/password/role are present; `level` defaults to 0 and `cycle_days`
to 40 at extraction (src/routes/users.py lines 33-34). -/
structure CreateUserPayload where
  name : String
  phone : String
  email : Option String := none
  password : String
  role : String
  level : Int := 0
  cycle_days : Int := 40
deriving Repr

/-- def create_user (src/routes/users.py lines 22-162), body of the route.
In source order: empty name → 400; validate_phone → 400; optional
validate_email → 400; validate_password → 400; validate_user_role — which
subscripts the missing config key USER_ROLES and therefore raises KeyError on
EVERY call that gets this far; then (dead code from here on)
validate_saalik_level, and can_user_create_role — which would itself raise
KeyError on the missing USER_CREATION_RULES key.  The remainder of the body
(duplicate phone/email checks, the murabi_id assignment, the User save and
audit log, lines 73-162) is unreachable and not modelled; in particular no
user is ever inserted into the store. -/
def create_user (users : List UserRec) (current_user : UserRec)
    (p : CreateUserPayload) : (Except PyError Response) × List UserRec :=
  let name := String.mk (trimChars p.name.data)
  let phone := String.mk (trimChars p.phone.data)
  let email : Option String :=
    match p.email with
    | some e =>
        if e.data.isEmpty then none else some (String.mk (trimChars e.data))
    | none => none
  if name.data.isEmpty then (.ok ⟨false, "Name is required", 400⟩, users)
  else
    match validate_phone phone with
    | (false, error) => (.ok ⟨false, error.getD "", 400⟩, users)
    | (true, _) =>
        let email_check : Bool × Option String :=
          match email with
          | some e => validate_email e
          | none => (true, none)
        match email_check with
        | (false, error) => (.ok ⟨false, error.getD "", 400⟩, users)
        | (true, _) =>
            match validate_password p.password with
            | (false, error) => (.ok ⟨false, error.getD "", 400⟩, users)
            | (true, _) =>
                match validate_user_role p.role with
                | .error e => (.error e, users)
                | .ok (false, error) => (.ok ⟨false, error.getD "", 400⟩, users)
                | .ok (true, _) =>
                    match validate_saalik_level p.level with
                    | .error e => (.error e, users)
                    | .ok (false, error) =>
                        (.ok ⟨false, error.getD "", 400⟩, users)
                    | .ok (true, _) =>
                        match can_user_create_role current_user.role p.role with
                        | .error e => (.error e, users)
                        | .ok false =>
                            (.ok ⟨false,
                              "You don\x27t have permission to create users with role: "
                                ++ p.role, 403⟩, users)
                        | .ok true =>
                            -- Unreachable: validate_user_role above raises
                            -- KeyError on every call (missing USER_ROLES key).
                            (.error .keyError, users)

/-! ## Concrete scenarios used by the claim theorems and witnesses -/

/-- Serial day number of 2024-06-10 (the scenarios' "today"). -/
def day_2024_06_10 : Int := daysFromCivil 2024 6 10

/-- Serial day number of 2024-01-01. -/
def day_2024_01_01 : Int := daysFromCivil 2024 1 1

/-- A Saalik in auto_restart mode whose cycle started 2024-01-01. -/
def user_C1 : UserRec :=
  { _id := "S1", name := "Saalik One", role := "Saalik",
    murabi_id := some "M1", masool_id := none, sheikh_id := none,
    level := 0, level_start_date := some day_2024_01_01, cycle_days := 40,
    settings := [("zikr_mode", .str "auto_restart")], is_active := true }

/-- A submitted categories map that passes level-0 validation (note the inner
`categories` nesting that validate_entry_data's double unwrap requires) and
whose zikr data has an un-done morning item. -/
def categories_C1 : JValue :=
  .dict [("categories", .dict
    [ ("farayz", .dict [("completed", .bool true)]),
      ("zikr", .dict [("completed", .bool false),
                      ("morning", .list [.dict [("done", .bool false)]]),
                      ("evening", .list [])]) ])]

/-- The semantic (inner) categories map of `categories_C1`, as an entry would
store it: its computed zikr completion is false (violation day). -/
def zikr_violation_day : List (String × JValue) :=
  [ ("farayz", .dict [("completed", .bool true)]),
    ("zikr", .dict [("completed", .bool false),
                    ("morning", .list [.dict [("done", .bool false)]]),
                    ("evening", .list [])]) ]

/-- The C1 submission: dated today, violating zikr. -/
def payload_C1 : EntryPayload :=
  { date := "2024-06-10", categories := categories_C1 }

/-- Initial state for the C1/C5 scenarios: empty entry store, empty audit
log. -/
def st_C1 : CESt := { entries := [], audits := [], user := user_C1 }

/-- A murabi_controlled Saalik with zikr_mandatory false and
auto_restart_on_missed_zikr true (the C4 witness user). -/
def user_C4 : UserRec :=
  { _id := "S4", name := "Saalik Four", role := "Saalik",
    murabi_id := some "M1", masool_id := none, sheikh_id := none,
    level := 0, level_start_date := some day_2024_01_01, cycle_days := 40,
    settings := [ ("zikr_mode", .str "murabi_controlled"),
                  ("zikr_mandatory", .bool false),
                  ("auto_restart_on_missed_zikr", .bool true) ],
    is_active := true }

/-- A violating categories map in the un-nested entry shape (for the C4
witness): computed zikr completion is false. -/
def categories_C4 : List (String × JValue) :=
  [ ("zikr", .dict [("morning", .list [.dict [("done", .bool false)]])]) ]

/-- The C4 witness submission. -/
def payload_C4 : EntryPayload :=
  { date := "2024-06-10", categories := .dict categories_C4 }

/-- Initial state for the C4 witness. -/
def st_C4 : CESt := { entries := [], audits := [], user := user_C4 }

/-- A fully-done level-0 submission a day old (the C3 witness payload;
distinct from the C1 scenario). -/
def categories_C3 : JValue :=
  .dict [("categories", .dict
    [ ("farayz", .dict [("completed", .bool true)]),
      ("zikr", .dict [("completed", .bool true),
                      ("morning", .list [.dict [("done", .bool true)]]),
                      ("evening", .list [.dict [("done", .bool true)]])]) ])]

/-- The C3 witness submission. -/
def payload_C3 : EntryPayload :=
  { date := "2024-06-09", categories := categories_C3 }

/-- The C3 witness user and state. -/
def user_C3 : UserRec :=
  { _id := "S3", name := "Saalik Three", role := "Saalik",
    murabi_id := some "M1", masool_id := none, sheikh_id := none,
    level := 0, level_start_date := none, cycle_days := 40,
    settings := [], is_active := true }

/-- Initial state for the C3 witness. -/
def st_C3 : CESt := { entries := [], audits := [], user := user_C3 }

/-- The hierarchy of the C2/C6 scenarios: Saalik S1 is assigned to Murabi M1,
M1 reports to Masool MS1 (so MS1 is an ancestor of S1), and M2 is another
Murabi not assigned to S1. -/
def users_C2 : List UserRec :=
  [ { _id := "S1", name := "Saalik One", role := "Saalik",
      murabi_id := some "M1", masool_id := none, sheikh_id := none,
      level := 0, level_start_date := some day_2024_01_01, cycle_days := 40,
      settings := [], is_active := true },
    { _id := "M1", name := "Murabi One", role := "Murabi",
      murabi_id := none, masool_id := some "MS1", sheikh_id := none,
      level := 0, level_start_date := none, cycle_days := 40,
      settings := [], is_active := true },
    { _id := "M2", name := "Murabi Two", role := "Murabi",
      murabi_id := none, masool_id := some "MS1", sheikh_id := none,
      level := 0, level_start_date := none, cycle_days := 40,
      settings := [], is_active := true },
    { _id := "MS1", name := "Masool One", role := "Masool",
      murabi_id := none, masool_id := none, sheikh_id := some "SH1",
      level := 0, level_start_date := none, cycle_days := 40,
      settings := [], is_active := true } ]

/-- The unassigned Murabi M2 of the C2/C6 scenarios. -/
def murabi_M2 : UserRec :=
  { _id := "M2", name := "Murabi Two", role := "Murabi",
    murabi_id := none, masool_id := some "MS1", sheikh_id := none,
    level := 0, level_start_date := none, cycle_days := 40,
    settings := [], is_active := true }

/-- The Masool MS1 of the C2 scenario (an ancestor of S1 via M1). -/
def masool_MS1 : UserRec :=
  { _id := "MS1", name := "Masool One", role := "Masool",
    murabi_id := none, masool_id := none, sheikh_id := some "SH1",
    level := 0, level_start_date := none, cycle_days := 40,
    settings := [], is_active := true }

/-- The Saalik S1 of the C2/C6 scenarios (as an acting user for C6). -/
def saalik_S1 : UserRec :=
  { _id := "S1", name := "Saalik One", role := "Saalik",
    murabi_id := some "M1", masool_id := none, sheikh_id := none,
    level := 0, level_start_date := some day_2024_01_01, cycle_days := 40,
    settings := [], is_active := true }

/-- S1's stored entry targeted by the C6 deletion attempts. -/
def entry_E1 : EntryRec :=
  { _id := "E1", user_id := "S1", murabi_id := some "M1",
    date := day_2024_01_01, categories := .dict [] }

/-- The entry store of the C2/C6 scenarios. -/
def entries_C2 : List EntryRec := [entry_E1]

/-- Builds the categories map of an entry whose zikr category has the given
morning and evening done flags (the C8 input shape). -/
def mkZikrCategories (morning evening : List Bool) : List (String × JValue) :=
  [("zikr", .dict
    [ ("morning", .list (morning.map (fun b => .dict [("done", .bool b)]))),
      ("evening", .list (evening.map (fun b => .dict [("done", .bool b)]))) ])]

/-- The role-creation table of the spec and of User.can_create_role, as an
explicit set of permitted (creator role, target role) pairs. -/
def creationTable : List (String × String) :=
  [ ("Admin", "Sheikh"), ("Admin", "Masool"), ("Admin", "Murabi"),
    ("Admin", "Saalik"), ("Admin", "Admin"),
    ("Sheikh", "Masool"), ("Sheikh", "Murabi"),
    ("Masool", "Murabi"), ("Masool", "Saalik"),
    ("Murabi", "Saalik") ]

/-- The C9 creating actor: a Murabi. -/
def murabi_creator : UserRec :=
  { _id := "M9", name := "Murabi Nine", role := "Murabi",
    murabi_id := none, masool_id := some "MS1", sheikh_id := none,
    level := 0, level_start_date := none, cycle_days := 40,
    settings := [], is_active := true }

/-- The C9 payload: a well-formed request to create a Saalik. -/
def payload_C9 : CreateUserPayload :=
  { name := "Ali Ahmed", phone := "+923001234567",
    password := "Passw0rd!", role := "Saalik" }

/-- The C10 user: a Saalik whose level, 7, has no catalog record. -/
def user_C10 : UserRec :=
  { _id := "S10", name := "Saalik Ten", role := "Saalik",
    murabi_id := some "M1", masool_id := none, sheikh_id := none,
    level := 7, level_start_date := none, cycle_days := 40,
    settings := [], is_active := true }

/-- Initial state for the C10 scenario. -/
def st_C10 : CESt := { entries := [], audits := [], user := user_C10 }

/-- The C10 submission (a valid current date; the categories shape is
irrelevant, the level check fires first). -/
def payload_C10 : EntryPayload :=
  { date := "2024-06-10", categories := .dict [] }

/-! ## Helper lemmas -/

/-- create_entry never mutates any store: every reachable branch either
returns a non-success response or raises, leaving the state untouched. -/
theorem create_entry_state_frame (today : Int) (st : CESt) (p : EntryPayload) :
    (create_entry today st p).2 = st := by
  unfold create_entry
  repeat' split
  all_goals rfl

/-- A validation that reports success implies the level exists in the
catalog. -/
theorem validate_ok_level_exists (e : JValue) (l : Int)
    (h : validate_entry_data e l = .ok (true, none)) :
    (find_by_level l).isSome := by
  unfold validate_entry_data at h
  cases e <;> simp_all
  cases hfl : find_by_level l <;> simp_all

/-! ## Claim theorems -/

/-- C3: for every authenticated Saalik submission whose payload passes the
date checks and validate_entry_data, create_entry raises TypeError before any
entry is persisted — the call at src/routes/entries.py line 87 applies the
one-parameter calculate_zikr_completion_status to two arguments (and line 93
would apply the two-parameter should_restart_cycle to three) — hence no
invocation of create_entry ever returns a success response or stores an
entry. -/
theorem claim_C3_create_entry_type_error :
    (∀ (today : Int) (st : CESt) (p : EntryPayload) (d : Int),
      st.user.role = "Saalik" →
      parse_date_from_string p.date = some d →
      d ≤ today →
      today - d ≤ 7 →
      validate_entry_data p.categories st.user.level = .ok (true, none) →
      create_entry today st p = (.error .typeError, st)) ∧
    (pyArityCheck calculate_zikr_completion_status_paramCount
        create_entry_line87_argCount = .error .typeError ∧
     pyArityCheck should_restart_cycle_paramCount
        create_entry_line93_argCount = .error .typeError) ∧
    (∀ (today : Int) (st : CESt) (p : EntryPayload),
      (create_entry today st p).2 = st ∧
      ∀ resp : Response, (create_entry today st p).1 = .ok resp →
        resp.success = false) := by
  refine ⟨?_, ⟨rfl, rfl⟩, ?_⟩
  · intro today st p d hrole hdate hle hfresh hval
    have hsome := validate_ok_level_exists _ _ hval
    rw [Option.isSome_iff_exists] at hsome
    obtain ⟨lr, hlr⟩ := hsome
    unfold create_entry
    rw [hrole]
    simp only [bne_self_eq_false, Bool.false_eq_true, if_false, hdate,
      if_neg (by omega : ¬ today < d), if_neg (by omega : ¬ 7 < today - d),
      hval, get_saalik_level_requirements, hlr]
    rfl
  · intro today st p
    refine ⟨create_entry_state_frame today st p, ?_⟩
    intro resp h
    unfold create_entry at h
    repeat' split at h
    all_goals (try simp_all)
    all_goals (subst h; rfl)

/-- C3 witness: a concrete authenticated Saalik submission (valid date one
day old, fully done level-0 categories) on which create_entry raises
TypeError and the state is untouched. -/
theorem claim_C3_witness :
    create_entry day_2024_06_10 st_C3 payload_C3 = (.error .typeError, st_C3) :=
  claim_C3_create_entry_type_error.1 day_2024_06_10 st_C3 payload_C3
    (daysFromCivil 2024 6 9) rfl rfl (by decide) (by decide) rfl

/-- C1: the claim says a zikr violation in auto_restart mode restarts the
cycle on save (level_start_date := today, plus a cycle_restarted audit
record) and that the restart decision function returns true; the code instead
raises TypeError at line 87 of create_entry before the restart block, so
level_start_date keeps its old value and no audit record is appended — and
should_restart_cycle itself raises KeyError (class Config has no
DEFAULT_ZIKR_MODE attribute) instead of returning true. -/
theorem claim_C1_auto_restart_violation :
    create_entry day_2024_06_10 st_C1 payload_C1 = (.error .typeError, st_C1) ∧
    (create_entry day_2024_06_10 st_C1 payload_C1).2.user.level_start_date
      = some day_2024_01_01 ∧
    (create_entry day_2024_06_10 st_C1 payload_C1).2.audits = [] ∧
    compute_zikr_completed zikr_violation_day = .ok false ∧
    should_restart_cycle user_C1 day_2024_06_10 = .error .keyError ∧
    pyConfigGet "DEFAULT_ZIKR_MODE" = .error .keyError := by
  refine ⟨?_, ?_, ?_, ?_, ?_, ?_⟩ <;> rfl

/-- C4: for a murabi_controlled user with zikr_mandatory false, submitting a
day whose computed zikr completion is false leaves level_start_date unchanged
and appends no audit record, whichever value auto_restart_on_missed_zikr has.
(It holds because create_entry raises before the restart block ever runs; see
claim C3.) -/
theorem claim_C4_murabi_controlled_no_restart
    (today : Int) (st : CESt) (p : EntryPayload) (b : Bool)
    (kvs : List (String × JValue))
    (_hmode : jGet st.user.settings "zikr_mode" .null
      = .str "murabi_controlled")
    (_hmand : jGet st.user.settings "zikr_mandatory" (.bool false)
      = .bool false)
    (_hauto : jGet st.user.settings "auto_restart_on_missed_zikr" (.bool false)
      = .bool b)
    (_hcats : p.categories = .dict kvs)
    (_hviol : compute_zikr_completed kvs = .ok false) :
    (create_entry today st p).2.user.level_start_date
      = st.user.level_start_date ∧
    (create_entry today st p).2.audits = st.audits := by
  rw [create_entry_state_frame]
  exact ⟨rfl, rfl⟩

/-- C4 witness: the murabi_controlled user with zikr_mandatory false and
auto_restart_on_missed_zikr true, submitting a violating day. -/
theorem claim_C4_witness :
    (create_entry day_2024_06_10 st_C4 payload_C4).2.user.level_start_date
      = st_C4.user.level_start_date ∧
    (create_entry day_2024_06_10 st_C4 payload_C4).2.audits = st_C4.audits :=
  claim_C4_murabi_controlled_no_restart day_2024_06_10 st_C4 payload_C4 true
    categories_C4 rfl rfl rfl rfl rfl

/-- C5: the claim says the second submission for the same (user, date) finds
the first stored entry via find_by_user_and_date and takes the update path;
in the code both submissions raise TypeError before either store branch, so
nothing is ever stored (the at-most-one invariant holds only vacuously) and
the second call's lookup finds nothing to update. -/
theorem claim_C5_resubmission :
    (create_entry day_2024_06_10 st_C1 payload_C1).1 = .error .typeError ∧
    (create_entry day_2024_06_10
        (create_entry day_2024_06_10 st_C1 payload_C1).2 payload_C1).1
      = .error .typeError ∧
    (create_entry day_2024_06_10
        (create_entry day_2024_06_10 st_C1 payload_C1).2 payload_C1).2.entries
      = [] ∧
    entry_find_by_user_and_date
      (create_entry day_2024_06_10 st_C1 payload_C1).2.entries "S1"
      day_2024_06_10 = none := by
  refine ⟨?_, ?_, ?_, ?_⟩ <;> rfl

/-- C2: the unassigned Murabi M2 is indeed denied with the 403
insufficient-permission response, but the Masool MS1 — a genuine ancestor of
Saalik S1 per the spec-modelled hierarchy walk — gets AttributeError (class
User defines no is_in_hierarchy method) instead of a permitted, non-error
result. -/
theorem claim_C2_view_authorization :
    get_entries users_C2 entries_C2 murabi_M2 { user_id := some "S1" } =
      .ok { success := false,
            message := "You can only view entries of your assigned Saalik",
            status_code := 403 } ∧
    is_in_hierarchy_spec users_C2 "S1" "MS1" = true ∧
    get_entries users_C2 entries_C2 masool_MS1 { user_id := some "S1" } =
      .error .attributeError ∧
    user_class_attrs.contains "is_in_hierarchy" = false := by
  refine ⟨?_, ?_, ?_, ?_⟩ <;> rfl

/-- C10: an unknown level (7) yields a catalog miss, which validation surfaces
as a failure naming the level, and the submission route turns it into a 400
response with that message — no exception and no default requirement set. -/
theorem claim_C10_unknown_level :
    find_by_level 7 = none ∧
    get_saalik_level_requirements 7 = none ∧
    (∀ kvs : List (String × JValue),
      validate_entry_data (.dict kvs) 7 =
        .ok (false, some "Invalid user level: 7")) ∧
    create_entry day_2024_06_10 st_C10 payload_C10 =
      (.ok { success := false, message := "Invalid user level: 7",
             status_code := 400 }, st_C10) := by
  refine ⟨rfl, rfl, ?_, by rfl⟩
  intro kvs
  rfl

/-- The evaluated record form of calculate_cycle_progress on a started
cycle. -/
theorem calculate_cycle_progress_some (today start cycle_days : Int) :
    calculate_cycle_progress today (some start) cycle_days =
      { current_day := min (today - start + 1) cycle_days,
        total_days := cycle_days,
        progress_percentage :=
          pyRound2 (((min (today - start + 1) cycle_days : Int) : ℚ)
            / (cycle_days : ℚ) * 100),
        days_remaining := max 0 (cycle_days - (today - start + 1)),
        is_completed := decide (cycle_days ≤ today - start + 1),
        start_date := some start,
        expected_completion_date := some (start + cycle_days - 1) } := rfl

/-- C7: for cycle_days > 0 and a present start date ≤ today, the progress
record satisfies the claimed equations: current_day = min(days_elapsed,
cycle_days) with days_elapsed = (today - start) + 1, 0 ≤ current_day ≤
cycle_days, the percentage is 100·current_day/cycle_days rounded at two
decimals, days_remaining = max(0, cycle_days - days_elapsed), and
is_completed holds iff current_day = cycle_days. -/
theorem claim_C7_cycle_progress (today start cycle_days : Int)
    (hpos : 0 < cycle_days) (hstart : start ≤ today) :
    (calculate_cycle_progress today (some start) cycle_days).current_day
        = min (today - start + 1) cycle_days ∧
    0 ≤ (calculate_cycle_progress today (some start) cycle_days).current_day ∧
    (calculate_cycle_progress today (some start) cycle_days).current_day
        ≤ cycle_days ∧
    (calculate_cycle_progress today (some start) cycle_days).progress_percentage
        = pyRound2 (100 *
            (((calculate_cycle_progress today (some start) cycle_days).current_day : Int) : ℚ)
            / (cycle_days : ℚ)) ∧
    (calculate_cycle_progress today (some start) cycle_days).days_remaining
        = max 0 (cycle_days - (today - start + 1)) ∧
    ((calculate_cycle_progress today (some start) cycle_days).is_completed = true
      ↔ (calculate_cycle_progress today (some start) cycle_days).current_day
          = cycle_days) := by
  rw [calculate_cycle_progress_some]
  refine ⟨rfl, ?_, ?_, ?_, rfl, ?_⟩
  · simp only
    omega
  · simp only
    omega
  · simp only
    congr 1
    ring
  · simp only [decide_eq_true_iff]
    omega

/-- C7 witness: today = 110, start = 100, cycle_days = 40 (day 11 of 40). -/
theorem claim_C7_witness :
    (calculate_cycle_progress 110 (some 100) 40).current_day
        = min (110 - 100 + 1) 40 ∧
    0 ≤ (calculate_cycle_progress 110 (some 100) 40).current_day ∧
    (calculate_cycle_progress 110 (some 100) 40).current_day ≤ 40 ∧
    (calculate_cycle_progress 110 (some 100) 40).progress_percentage
        = pyRound2 (100 *
            (((calculate_cycle_progress 110 (some 100) 40).current_day : Int) : ℚ) / (40 : ℚ)) ∧
    (calculate_cycle_progress 110 (some 100) 40).days_remaining
        = max 0 (40 - (110 - 100 + 1)) ∧
    ((calculate_cycle_progress 110 (some 100) 40).is_completed = true
      ↔ (calculate_cycle_progress 110 (some 100) 40).current_day = 40) :=
  claim_C7_cycle_progress 110 100 40 (by decide) (by decide)

/-- `all(item.get('done', False) for item in items)` over a list built from
boolean flags is the conjunction of the flags. -/
theorem allDone_mapped (bs : List Bool) :
    allDone (bs.map (fun b => .dict [("done", .bool b)])) = .ok (bs.all id) := by
  induction bs with
  | nil => rfl
  | cons b bs ih =>
      cases b
      · rfl
      · simpa [allDone, pyGetDefault, jGet, truthy] using ih

/-- C8: the computed zikr_completed of an entry is the conjunction of the
done flags over all morning items and all evening items, an empty sub-list
counting vacuously as all done; in particular empty morning and evening item
lists (or an absent zikr map altogether) give zikr_completed = true. -/
theorem claim_C8_zikr_completion :
    (∀ morning evening : List Bool,
      compute_zikr_completed (mkZikrCategories morning evening) =
        .ok (morning.all id && evening.all id)) ∧
    compute_zikr_completed
      [("zikr", .dict [("morning", .list []), ("evening", .list [])])] =
      .ok true ∧
    compute_zikr_completed [] = .ok true := by
  refine ⟨?_, rfl, rfl⟩
  intro morning evening
  simp [compute_zikr_completed, mkZikrCategories, jGet, pyGetDefault,
    pyIterElems, allDone_mapped, Except.bind, bind, Except.map, Functor.map,
    pure, Except.pure]

/-- C9: User.can_create_role permits exactly the pairs of the fixed table
(in particular Murabi→Masool is denied and Murabi→Saalik allowed); but the
create_user route crashes with KeyError before any user is created — its
validate_user_role subscripts the missing USER_ROLES config key (and
can_user_create_role would subscript the missing USER_CREATION_RULES key) —
so no Saalik is ever created and no murabi_id is ever assigned. -/
theorem claim_C9_role_creation :
    (∀ a t : String, can_create_role a t = true ↔ (a, t) ∈ creationTable) ∧
    can_create_role "Murabi" "Masool" = false ∧
    can_create_role "Murabi" "Saalik" = true ∧
    create_user [] murabi_creator payload_C9 = (.error .keyError, []) ∧
    validate_user_role "Saalik" = .error .keyError ∧
    can_user_create_role "Murabi" "Saalik" = .error .keyError := by
  refine ⟨?_, rfl, rfl, by rfl, rfl, rfl⟩
  intro a t
  unfold can_create_role creationTable
  split_ifs with h1 h2 h3 h4 <;>
    simp_all [beq_iff_eq, List.elem_iff, Prod.ext_iff]

/-- If the body of delete_entry leaves the C6 store unchanged for an actor,
so does the whole decorated route, whatever `required_roles` list the actor
smuggles through the payload. -/
theorem delete_entry_route_keeps_store (u : UserRec)
    (ov : Option (List String))
    (hd : (delete_entry users_C2 entries_C2 u "E1").2 = entries_C2) :
    (delete_entry_route users_C2 entries_C2 u "E1" ov).2 = entries_C2 := by
  simp only [delete_entry_route]
  repeat' split
  all_goals (try rfl)
  all_goals (rename_i heq; rw [heq] at hd; simpa using hd)

/-- C6: a Murabi or Saalik actor attempting the delete always leaves the
entry stored; without payload tampering the outcome is the role_required 403
denial, and the route body itself also answers 403 insufficient permissions —
but an actor who smuggles a `required_roles` list through the payload slips
past the decorator and then receives TypeError (the @log_activity decorator
calls AuditLog.log_action with the unexpected keyword `metadata`) instead of
a permission denial. -/
theorem claim_C6_delete_denied :
    delete_entry_route users_C2 entries_C2 murabi_M2 "E1" none =
      (.ok { success := false,
             message := "Access denied. Required roles: Masool, Sheikh, Admin",
             status_code := 403 }, entries_C2) ∧
    delete_entry_route users_C2 entries_C2 saalik_S1 "E1" none =
      (.ok { success := false,
             message := "Access denied. Required roles: Masool, Sheikh, Admin",
             status_code := 403 }, entries_C2) ∧
    delete_entry users_C2 entries_C2 murabi_M2 "E1" =
      (.ok { success := false,
             message := "Insufficient permissions to delete this entry",
             status_code := 403 }, entries_C2) ∧
    delete_entry users_C2 entries_C2 saalik_S1 "E1" =
      (.ok { success := false,
             message := "Insufficient permissions to delete this entry",
             status_code := 403 }, entries_C2) ∧
    delete_entry_route users_C2 entries_C2 murabi_M2 "E1" (some ["Murabi"]) =
      (.error .typeError, entries_C2) ∧
    delete_entry_route users_C2 entries_C2 saalik_S1 "E1" (some ["Saalik"]) =
      (.error .typeError, entries_C2) ∧
    (∀ ov : Option (List String),
      (delete_entry_route users_C2 entries_C2 murabi_M2 "E1" ov).2
        = entries_C2) ∧
    (∀ ov : Option (List String),
      (delete_entry_route users_C2 entries_C2 saalik_S1 "E1" ov).2
        = entries_C2) := by
  refine ⟨by rfl, by rfl, by rfl, by rfl, by rfl, by rfl,
    fun ov => delete_entry_route_keeps_store murabi_M2 ov rfl,
    fun ov => delete_entry_route_keeps_store saalik_S1 ov rfl⟩

end TMB
